import Mathlib

/-
Shallow embedding of the web_browsing_agent repository:
the subprocess bridge browser_automation (src/src/stage_hand_tool.py)
and the URL-defaulting / front-end-trigger logic (src/src/agent.py).

Modelling conventions:
- external library calls (json.loads) are passed in as oracles;
- Python exception propagation is made explicit with Except: Except.ok s
  models "the function returns the string s", Except.error e models "the
  exception e escapes to the caller";
- the side effects on the temporary script file are recorded as an
  explicit event trace, separate from the returned value.
-/

set_option autoImplicit false

/-- Python str.strip considers these ASCII whitespace characters: space,
tab, newline, carriage return, vertical tab, form feed. -/
def isPyWhitespace (c : Char) : Bool :=
  c = ' ' || c = '\t' || c = '\n' || c = '\r' || c = '\x0b' || c = '\x0c'

/-- Python str.strip(): remove leading and trailing whitespace. -/
def pyStrip (s : String) : String :=
  String.mk (((s.data.dropWhile isPyWhitespace).reverse.dropWhile isPyWhitespace).reverse)

/-- Python str.lower() on the ASCII range (the placeholder URL values the
code compares against are all ASCII). -/
def pyLower (s : String) : String :=
  String.mk (s.data.map Char.toLower)

/-- Values produced by Python json.loads. JSON numbers are modelled as
integers; no claim depends on float formatting. -/
inductive Json where
  | null : Json
  | bool (b : Bool) : Json
  | num (n : Int) : Json
  | str (s : String) : Json
  | arr (elems : List Json) : Json
  | obj (fields : List (String × Json)) : Json

/-- Python truthiness of a decoded JSON value, as tested by the line
`if response[...]:` — None, False, 0, empty string, empty list and empty
dict are falsy. -/
def Json.truthy : Json → Bool
  | Json.null => false
  | Json.bool b => b
  | Json.num n => n != 0
  | Json.str s => s != ""
  | Json.arr xs => !xs.isEmpty
  | Json.obj fs => !fs.isEmpty

mutual

/-- Python repr() of a decoded JSON value (repr escaping of special
characters inside strings is elided; the claims only exercise the
plain-string case via str()). -/
def Json.pyRepr : Json → String
  | Json.null => "None"
  | Json.bool b => if b then "True" else "False"
  | Json.num n => toString n
  | Json.str s => "\x27" ++ s ++ "\x27"
  | Json.arr xs => "[" ++ pyReprElems xs ++ "]"
  | Json.obj fs => "\x7b" ++ pyReprFields fs ++ "\x7d"

/-- Comma-separated reprs of the elements of a decoded JSON array. -/
def pyReprElems : List Json → String
  | [] => ""
  | [x] => Json.pyRepr x
  | x :: xs => Json.pyRepr x ++ ", " ++ pyReprElems xs

/-- Comma-separated key: value reprs of the entries of a decoded JSON
object. -/
def pyReprFields : List (String × Json) → String
  | [] => ""
  | [(k, v)] => "\x27" ++ k ++ "\x27: " ++ Json.pyRepr v
  | (k, v) :: fs => "\x27" ++ k ++ "\x27: " ++ Json.pyRepr v ++ ", " ++ pyReprFields fs

end

/-- Python str() of a decoded JSON value, as interpolated by an f-string:
the string itself for strings, repr-based rendering otherwise. -/
def Json.pyStr : Json → String
  | Json.str s => s
  | j => j.pyRepr

/-- Python exceptions relevant to browser_automation: the timeout raised
by subprocess.run, the KeyError / TypeError raised by subscripting the
decoded JSON, and any other exception (carried as its str()). -/
inductive PyExn where
  | timeoutExpired : PyExn
  | keyError (key : String) : PyExn
  | typeError (msg : String) : PyExn
  | other (msg : String) : PyExn
deriving DecidableEq

/-- Python str(e) for the modelled exceptions, as interpolated at line 143
of stage_hand_tool.py. str of a KeyError is the repr of the missing key.
The timeoutExpired case never reaches str() in browser_automation because
the dedicated handler at line 136 catches it first. -/
def PyExn.pyStr : PyExn → String
  | PyExn.timeoutExpired => "Command timed out after 180 seconds"
  | PyExn.keyError k => "\x27" ++ k ++ "\x27"
  | PyExn.typeError m => m
  | PyExn.other m => m

/-- Result of subprocess.run when the child terminates within the
timeout: exit code and the captured text-mode stdout and stderr. -/
structure SubprocessResult where
  returncode : Int
  stdout : String
  stderr : String
deriving DecidableEq

/-- Outcome of the subprocess.run call at stage_hand_tool.py:109-115:
either the child terminates in time, or the 180-second timeout fires
(subprocess.TimeoutExpired), or the invocation itself raises some other
exception (for example OSError), carried as its str(). -/
inductive ChildOutcome where
  | completed (r : SubprocessResult) : ChildOutcome
  | timedOut : ChildOutcome
  | raisedOther (msg : String) : ChildOutcome
deriving DecidableEq

/-- Whether the outcome is a non-timeout exception from subprocess.run. -/
def ChildOutcome.isRaised : ChildOutcome → Bool
  | ChildOutcome.raisedOther _ => true
  | _ => false

/-- A Python dict built by json.loads keeps the last value bound to a
duplicated key, so lookup scans the pairs from the right. -/
def lookupLast (fields : List (String × Json)) (k : String) : Option Json :=
  (fields.reverse.find? (fun p => p.fst == k)).map Prod.snd

/-- Python subscript response[k] on a decoded JSON value: a dict lookup
raises KeyError on a missing key, and subscripting any non-dict decoded
value with a string key raises TypeError (messages as in CPython). -/
def pySubscript : Json → String → Except PyExn Json
  | Json.obj fields, k =>
    match lookupLast fields k with
    | some v => Except.ok v
    | none => Except.error (PyExn.keyError k)
  | Json.arr _, _ => Except.error (PyExn.typeError "list indices must be integers or slices, not str")
  | Json.str _, _ => Except.error (PyExn.typeError "string indices must be integers, not \x27str\x27")
  | Json.num _, _ => Except.error (PyExn.typeError "\x27int\x27 object is not subscriptable")
  | Json.bool _, _ => Except.error (PyExn.typeError "\x27bool\x27 object is not subscriptable")
  | Json.null, _ => Except.error (PyExn.typeError "\x27NoneType\x27 object is not subscriptable")

/-- Lines 124-131 of stage_hand_tool.py: json.loads on the stripped
stdout (the jloads oracle models the external json.loads; none means it
raised json.JSONDecodeError, which the inner handler at line 130 turns
into the raw pass-through message). The subscripts response["success"],
response["data"], response["error"] can raise KeyError / TypeError, which
the inner handler does not catch, so those escape as Except.error.
Note that the source writes a double backslash in the success f-string,
so the returned text contains a literal backslash followed by n. -/
def parseStdout (jloads : String → Option Json) (out : String) : Except PyExn String :=
  match jloads out with
  | none => Except.ok ("Browser Automation Output: " ++ out)
  | some response =>
    match pySubscript response "success" with
    | Except.error e => Except.error e
    | Except.ok v =>
      if v.truthy then
        match pySubscript response "data" with
        | Except.error e => Except.error e
        | Except.ok d => Except.ok ("Browser Automation Success:\\n" ++ d.pyStr)
      else
        match pySubscript response "error" with
        | Except.error e => Except.error e
        | Except.ok m => Except.ok ("Browser Automation Failed: " ++ m.pyStr)

/-- Body of the outer try of browser_automation (lines 99-134) after the
subprocess.run call has been resolved into a ChildOutcome. A timeout or a
non-timeout exception from subprocess.run propagates as Except.error. On
a completed child: if the exit code is 0 and the stripped stdout is
nonempty (Python truthiness at line 123), parse it; otherwise return the
Process Error message, with `result.stderr or f"Process exited with code
..."` choosing the exit-code text exactly when stderr is empty. -/
def browser_automation_try (jloads : String → Option Json) : ChildOutcome → Except PyExn String
  | ChildOutcome.timedOut => Except.error PyExn.timeoutExpired
  | ChildOutcome.raisedOther m => Except.error (PyExn.other m)
  | ChildOutcome.completed r =>
    if r.returncode = 0 ∧ pyStrip r.stdout ≠ "" then
      parseStdout jloads (pyStrip r.stdout)
    else
      Except.ok ("Process Error: " ++
        (if r.stderr ≠ "" then r.stderr
         else "Process exited with code " ++ toString r.returncode))

/-- browser_automation (stage_hand_tool.py:99-143), as observed through
its returned string: the handler at lines 136-141 turns TimeoutExpired
into the fixed timeout message, and the handler at lines 142-143 turns
every other escaping exception into a Subprocess Error message carrying
str(e). Except.ok s models "returns the string s". -/
def browser_automation (jloads : String → Option Json) (o : ChildOutcome) : Except PyExn String :=
  match browser_automation_try jloads o with
  | Except.ok s => Except.ok s
  | Except.error PyExn.timeoutExpired =>
    Except.ok "Error: Browser automation timed out after 3 minutes"
  | Except.error e => Except.ok ("Subprocess Error: " ++ e.pyStr)

/-- Filesystem events on the temporary script path performed by one
browser_automation invocation. An unlink event records an os.unlink
attempt whose possible failure is swallowed by a bare except. -/
inductive FsEvent where
  | create (path : String) : FsEvent
  | unlink (path : String) : FsEvent
deriving DecidableEq

/-- Temporary-file events of one browser_automation invocation that
writes its script to path p. The NamedTemporaryFile at line 101 creates
the file. On a completed child the try/except at lines 118-121 unlinks it
before parsing; on TimeoutExpired the handler at lines 137-140 unlinks
it; on any other exception from subprocess.run control reaches the
handler at lines 142-143, which performs no unlink. -/
def fsTrace (o : ChildOutcome) (p : String) : List FsEvent :=
  FsEvent.create p ::
    (match o with
     | ChildOutcome.completed _ => [FsEvent.unlink p]
     | ChildOutcome.timedOut => [FsEvent.unlink p]
     | ChildOutcome.raisedOther _ => [])

/-- Concatenated temporary-file events of a sequence of invocations,
each given as its child outcome and its temporary script path. -/
def runTrace (runs : List (ChildOutcome × String)) : List FsEvent :=
  (runs.map (fun x => fsTrace x.fst x.snd)).flatten

/-- A path is leaked by an event trace when it is created and never
unlinked. -/
def leaked (tr : List FsEvent) (p : String) : Prop :=
  FsEvent.create p ∈ tr ∧ FsEvent.unlink p ∉ tr

/-- URL defaulting in BrowserAutomationFlow.plan_task
(src/src/agent.py:132-134): `if not website_url or website_url.lower()
in ["", "none", "null", "n/a"]` replaces the planned URL with the fixed
default. An absent URL is not representable (the pydantic field is
required), so absence is modelled by the empty string, which Python
`not website_url` catches. -/
def plan_task_website_url (website_url : String) : String :=
  if website_url = "" ∨ pyLower website_url ∈ ["", "none", "null", "n/a"] then
    "https://www.google.com"
  else
    website_url

/-- Guard in run_streamlit_app (src/src/agent.py:260): the flow is
constructed and kicked off only when the button was clicked and
user_query.strip() is truthy, i.e. nonempty. -/
def run_streamlit_app_triggers (buttonClicked : Bool) (user_query : String) : Bool :=
  buttonClicked && (pyStrip user_query != "")

/-- Strings appended at distinct literal fronts are distinct: helper for
comparing the Subprocess Error and the Browser Automation Output shapes. -/
theorem string_data_append (a b : String) : (a ++ b).data = a.data ++ b.data := by
  cases a
  cases b
  rfl

/-- No Subprocess Error message coincides with a raw pass-through
message: their leading characters differ. -/
theorem subprocess_error_ne_output (m s : String) :
    ("Subprocess Error: " ++ m) ≠ ("Browser Automation Output: " ++ s) := by
  intro h
  have h2 : ("Subprocess Error: " ++ m).data.head? = ("Browser Automation Output: " ++ s).data.head? := by
    rw [h]
  rw [string_data_append, string_data_append] at h2
  have h3 : (some 'S' : Option Char) = some 'B' := h2
  simp at h3

/-- C4: on a child process that does not terminate within the 180-second
ceiling, browser_automation returns exactly the timeout-specific message
and nothing else. -/
theorem C4_timeout_message (jloads : String → Option Json) :
    browser_automation jloads ChildOutcome.timedOut =
      Except.ok "Error: Browser automation timed out after 3 minutes" := rfl

/-- C7: for every child-process outcome and every behaviour of the JSON
parser, browser_automation returns a string to its caller and never lets
an exception escape. -/
theorem C7_never_raises (jloads : String → Option Json) (o : ChildOutcome) :
    ∃ s : String, browser_automation jloads o = Except.ok s := by
  unfold browser_automation
  split
  · exact ⟨_, rfl⟩
  · exact ⟨_, rfl⟩
  · exact ⟨_, rfl⟩

/-- A subscript error on the decoded response escapes the inner
json.JSONDecodeError handler and is converted by the outermost handler
(lines 142-143) into a Subprocess Error message carrying str(e). -/
theorem browser_automation_subscript_error (jloads : String → Option Json)
    (r : SubprocessResult) (j : Json) (e : PyExn)
    (hret : r.returncode = 0) (hne : pyStrip r.stdout ≠ "")
    (hparse : jloads (pyStrip r.stdout) = some j)
    (he : pySubscript j "success" = Except.error e)
    (hnt : e ≠ PyExn.timeoutExpired) :
    browser_automation jloads (ChildOutcome.completed r) =
      Except.ok ("Subprocess Error: " ++ e.pyStr) := by
  cases e with
  | timeoutExpired => exact absurd rfl hnt
  | keyError k =>
    simp [browser_automation, browser_automation_try, parseStdout, hret, hne, hparse, he]
  | typeError m =>
    simp [browser_automation, browser_automation_try, parseStdout, hret, hne, hparse, he]
  | other m =>
    simp [browser_automation, browser_automation_try, parseStdout, hret, hne, hparse, he]

/-- C2: if the child exits with code 0 and its stdout parses as the
structured output shape with success set to true, browser_automation
returns the success branch wording followed by the exact data payload
from the structured output. -/
theorem C2_success_payload (jloads : String → Option Json) (r : SubprocessResult)
    (fields : List (String × Json)) (d : String)
    (hret : r.returncode = 0) (hne : pyStrip r.stdout ≠ "")
    (hparse : jloads (pyStrip r.stdout) = some (Json.obj fields))
    (hsucc : lookupLast fields "success" = some (Json.bool true))
    (hdata : lookupLast fields "data" = some (Json.str d)) :
    browser_automation jloads (ChildOutcome.completed r) =
      Except.ok ("Browser Automation Success:\\n" ++ d) := by
  simp [browser_automation, browser_automation_try, parseStdout, pySubscript,
    hret, hne, hparse, hsucc, hdata, Json.truthy, Json.pyStr]

/-- C2 witness: a concrete structured success output yields the success
message with its data payload. -/
theorem C2_success_payload_witness :
    browser_automation
        (fun _ => some (Json.obj
          [("success", Json.bool true), ("data", Json.str "42 items"), ("error", Json.str "")]))
        (ChildOutcome.completed ⟨0, "out", ""⟩) =
      Except.ok ("Browser Automation Success:\\n" ++ "42 items") :=
  C2_success_payload _ _ _ _ rfl (by decide) rfl rfl rfl

/-- C3: if the child exits with code 0 and its stdout parses as valid
structured output with success set to false, browser_automation returns
the failure branch wording followed by the provided error text. -/
theorem C3_failure_error_text (jloads : String → Option Json) (r : SubprocessResult)
    (fields : List (String × Json)) (msg : String)
    (hret : r.returncode = 0) (hne : pyStrip r.stdout ≠ "")
    (hparse : jloads (pyStrip r.stdout) = some (Json.obj fields))
    (hsucc : lookupLast fields "success" = some (Json.bool false))
    (herr : lookupLast fields "error" = some (Json.str msg)) :
    browser_automation jloads (ChildOutcome.completed r) =
      Except.ok ("Browser Automation Failed: " ++ msg) := by
  simp [browser_automation, browser_automation_try, parseStdout, pySubscript,
    hret, hne, hparse, hsucc, herr, Json.truthy, Json.pyStr]

/-- C3 witness: a concrete structured failure output yields the failure
message with its error text. -/
theorem C3_failure_error_text_witness :
    browser_automation
        (fun _ => some (Json.obj
          [("success", Json.bool false), ("data", Json.str ""), ("error", Json.str "No data could be extracted from the page")]))
        (ChildOutcome.completed ⟨0, "out", ""⟩) =
      Except.ok ("Browser Automation Failed: " ++ "No data could be extracted from the page") :=
  C3_failure_error_text _ _ _ _ rfl (by decide) rfl rfl rfl

/-- C5: if the child exits with code 0 and its stripped stdout is
nonempty but json.loads rejects it, browser_automation surfaces the
stripped stdout text as a Browser Automation Output message, regardless
of whether the underlying automation succeeded. -/
theorem C5_raw_passthrough (jloads : String → Option Json) (r : SubprocessResult)
    (hret : r.returncode = 0) (hne : pyStrip r.stdout ≠ "")
    (hparse : jloads (pyStrip r.stdout) = none) :
    browser_automation jloads (ChildOutcome.completed r) =
      Except.ok ("Browser Automation Output: " ++ pyStrip r.stdout) := by
  simp [browser_automation, browser_automation_try, parseStdout, hret, hne, hparse]

/-- C5 witness: a concrete non-JSON stdout is passed through. -/
theorem C5_raw_passthrough_witness :
    browser_automation (fun _ => none)
        (ChildOutcome.completed ⟨0, " the page said hello ", ""⟩) =
      Except.ok ("Browser Automation Output: " ++ pyStrip " the page said hello ") :=
  C5_raw_passthrough _ _ rfl (by decide) rfl

/-- C6: if the child exits with a nonzero code (in particular when it
crashed before printing anything), browser_automation returns a Process
Error message containing the child's stderr if present, otherwise its
exit code. -/
theorem C6_nonzero_exit (jloads : String → Option Json) (r : SubprocessResult)
    (h : r.returncode ≠ 0) :
    browser_automation jloads (ChildOutcome.completed r) =
      Except.ok ("Process Error: " ++
        (if r.stderr ≠ "" then r.stderr
         else "Process exited with code " ++ toString r.returncode)) := by
  simp [browser_automation, browser_automation_try, h]

/-- C6 witness: a crash with exit code 1 and a stderr trace surfaces the
stderr; the same theorem applied at an outcome with empty stderr surfaces
the exit code. -/
theorem C6_nonzero_exit_witness :
    browser_automation (fun _ => none) (ChildOutcome.completed ⟨1, "", "Traceback: boom"⟩) =
      Except.ok ("Process Error: " ++
        (if ("Traceback: boom" : String) ≠ "" then "Traceback: boom"
         else "Process exited with code " ++ toString (1 : Int))) ∧
    browser_automation (fun _ => none) (ChildOutcome.completed ⟨-9, "", ""⟩) =
      Except.ok ("Process Error: " ++
        (if ("" : String) ≠ "" then ""
         else "Process exited with code " ++ toString (-9 : Int))) :=
  ⟨C6_nonzero_exit _ _ (by decide), C6_nonzero_exit _ _ (by decide)⟩

/-- C10: if the child exits with code 0 and its stdout is valid JSON that
is not an object containing a "success" key, the subscript raises, the
inner handler (which only catches json.JSONDecodeError) does not stop it,
and the outermost handler returns a Subprocess Error message naming the
lookup failure — not the raw-text pass-through message. -/
theorem C10_lookup_failure (jloads : String → Option Json) (r : SubprocessResult) (j : Json)
    (hret : r.returncode = 0) (hne : pyStrip r.stdout ≠ "")
    (hparse : jloads (pyStrip r.stdout) = some j)
    (hnokey : ∀ fields, j = Json.obj fields → lookupLast fields "success" = none) :
    ∃ e : PyExn, pySubscript j "success" = Except.error e ∧
      browser_automation jloads (ChildOutcome.completed r) =
        Except.ok ("Subprocess Error: " ++ e.pyStr) ∧
      ("Subprocess Error: " ++ e.pyStr) ≠ ("Browser Automation Output: " ++ pyStrip r.stdout) := by
  cases j with
  | obj fields =>
    have he : pySubscript (Json.obj fields) "success" = Except.error (PyExn.keyError "success") := by
      simp [pySubscript, hnokey fields rfl]
    exact ⟨_, he,
      browser_automation_subscript_error jloads r _ _ hret hne hparse he (by simp),
      subprocess_error_ne_output _ _⟩
  | null =>
    exact ⟨_, rfl,
      browser_automation_subscript_error jloads r _ _ hret hne hparse rfl (by simp),
      subprocess_error_ne_output _ _⟩
  | bool b =>
    exact ⟨_, rfl,
      browser_automation_subscript_error jloads r _ _ hret hne hparse rfl (by simp),
      subprocess_error_ne_output _ _⟩
  | num n =>
    exact ⟨_, rfl,
      browser_automation_subscript_error jloads r _ _ hret hne hparse rfl (by simp),
      subprocess_error_ne_output _ _⟩
  | str s =>
    exact ⟨_, rfl,
      browser_automation_subscript_error jloads r _ _ hret hne hparse rfl (by simp),
      subprocess_error_ne_output _ _⟩
  | arr xs =>
    exact ⟨_, rfl,
      browser_automation_subscript_error jloads r _ _ hret hne hparse rfl (by simp),
      subprocess_error_ne_output _ _⟩

/-- C10 witness: a child printing the JSON array [] exits 0, yet the
bridge answers with a Subprocess Error message, not the pass-through. -/
theorem C10_lookup_failure_witness :
    ∃ e : PyExn, pySubscript (Json.arr []) "success" = Except.error e ∧
      browser_automation (fun _ => some (Json.arr [])) (ChildOutcome.completed ⟨0, "[]", ""⟩) =
        Except.ok ("Subprocess Error: " ++ e.pyStr) ∧
      ("Subprocess Error: " ++ e.pyStr) ≠ ("Browser Automation Output: " ++ pyStrip "[]") :=
  C10_lookup_failure _ _ _ rfl (by decide) rfl (fun fields h => by cases h)

/-- C1 counterexample: when subprocess.run raises a non-timeout exception
(for example OSError), control jumps from line 109 to the handler at
lines 142-143, bypassing the unlink at lines 118-121; that handler
performs no cleanup, so the invocation creates its temporary script file
and returns without ever attempting to delete it — the file is leaked,
contradicting the claim that every invocation deletes its file. -/
theorem C1_spawn_error_leak :
    FsEvent.create "/tmp/tmpx1.py" ∈
      fsTrace (ChildOutcome.raisedOther "OSError: spawn failed") "/tmp/tmpx1.py" ∧
    FsEvent.unlink "/tmp/tmpx1.py" ∉
      fsTrace (ChildOutcome.raisedOther "OSError: spawn failed") "/tmp/tmpx1.py" ∧
    leaked (runTrace [(ChildOutcome.raisedOther "OSError: spawn failed", "/tmp/tmpx1.py")])
      "/tmp/tmpx1.py" := by
  refine ⟨by decide, by decide, by decide, by decide⟩

/-- C1 (amended): every invocation creates exactly one temporary script
file; whenever the subprocess call completes or times out — but not when
it raises a non-timeout exception — the file is unlinked before the
function returns (the unlink attempts at lines 118-121 and 137-140 both
swallow deletion errors with a bare except); and across any sequence of
invocations none of which hits a non-timeout subprocess exception, no
temporary path is leaked. -/
theorem C1_cleanup (o : ChildOutcome) (p : String)
    (runs : List (ChildOutcome × String))
    (ho : o.isRaised = false)
    (hruns : ∀ x ∈ runs, ChildOutcome.isRaised x.fst = false) :
    ((fsTrace o p).filter
        (fun e => match e with | FsEvent.create _ => true | FsEvent.unlink _ => false))
      = [FsEvent.create p] ∧
    FsEvent.unlink p ∈ fsTrace o p ∧
    (∀ q : String, ¬ leaked (runTrace runs) q) := by
  refine ⟨?_, ?_, ?_⟩
  · cases o <;> rfl
  · cases o with
    | completed r => simp [fsTrace]
    | timedOut => simp [fsTrace]
    | raisedOther m => cases ho
  · intro q hq
    rcases hq with ⟨hc, hu⟩
    induction runs with
    | nil => simp [runTrace] at hc
    | cons x rest ih =>
      have hx := hruns x (List.mem_cons_self x rest)
      have hrest : ∀ y ∈ rest, ChildOutcome.isRaised y.fst = false :=
        fun y hy => hruns y (List.mem_cons_of_mem x hy)
      have hsplit : runTrace (x :: rest) = fsTrace x.fst x.snd ++ runTrace rest := by
        simp [runTrace]
      rw [hsplit] at hc hu
      rcases List.mem_append.mp hc with hhead | htail
      · have hcases : x.fst = ChildOutcome.timedOut ∨ ∃ r, x.fst = ChildOutcome.completed r := by
          cases hfst : x.fst with
          | completed r => exact Or.inr ⟨r, rfl⟩
          | timedOut => exact Or.inl rfl
          | raisedOther m => rw [hfst] at hx; cases hx
        have hmem : FsEvent.unlink q ∈ fsTrace x.fst x.snd := by
          rcases hcases with hfst | ⟨r, hfst⟩ <;>
            · rw [hfst] at hhead ⊢
              simp [fsTrace] at hhead ⊢
              simpa using hhead
        exact hu (List.mem_append.mpr (Or.inl hmem))
      · exact ih hrest htail (fun h => hu (List.mem_append.mpr (Or.inr h)))

/-- C1 witness: a timed-out run followed by a completed run each unlink
their file, and the two-run sequence leaks nothing. -/
theorem C1_cleanup_witness :
    ((fsTrace ChildOutcome.timedOut "/tmp/a.py").filter
        (fun e => match e with | FsEvent.create _ => true | FsEvent.unlink _ => false))
      = [FsEvent.create "/tmp/a.py"] ∧
    FsEvent.unlink "/tmp/a.py" ∈ fsTrace ChildOutcome.timedOut "/tmp/a.py" ∧
    (∀ q : String,
      ¬ leaked (runTrace
        [(ChildOutcome.timedOut, "/tmp/a.py"),
         (ChildOutcome.completed ⟨0, "", ""⟩, "/tmp/b.py")]) q) :=
  C1_cleanup ChildOutcome.timedOut "/tmp/a.py"
    [(ChildOutcome.timedOut, "/tmp/a.py"),
     (ChildOutcome.completed ⟨0, "", ""⟩, "/tmp/b.py")]
    (by decide) (by decide)

/-- C8: every planned URL that is empty (also standing in for an absent
field) or whose lowercase form is one of the placeholders none, null,
n/a is replaced by the fixed default https://www.google.com, and the
effective URL is never empty after defaulting. -/
theorem C8_url_defaulting :
    (∀ u : String,
        (u = "" ∨ pyLower u = "none" ∨ pyLower u = "null" ∨ pyLower u = "n/a") →
        plan_task_website_url u = "https://www.google.com") ∧
    (∀ u : String, plan_task_website_url u ≠ "") := by
  constructor
  · intro u h
    unfold plan_task_website_url
    rw [if_pos]
    rcases h with h | h | h | h
    · exact Or.inl h
    · exact Or.inr (by rw [h]; decide)
    · exact Or.inr (by rw [h]; decide)
    · exact Or.inr (by rw [h]; decide)
  · intro u
    unfold plan_task_website_url
    split
    · decide
    · rename_i h
      intro hc
      exact h (Or.inl hc)

/-- C8 witness: the uppercase placeholder N/A is defaulted, and the
empty planned URL still yields a nonempty effective URL. -/
theorem C8_url_defaulting_witness :
    plan_task_website_url "N/A" = "https://www.google.com" ∧
    plan_task_website_url "" ≠ "" :=
  ⟨C8_url_defaulting.1 "N/A" (Or.inr (Or.inr (Or.inr (by decide)))),
   C8_url_defaulting.2 ""⟩

/-- C9: whenever the user query is empty or all whitespace, the guard in
run_streamlit_app evaluates to false — whether or not the button was
clicked — so the automation flow is never constructed or kicked off. -/
theorem C9_blank_query_no_run (buttonClicked : Bool) (q : String)
    (h : pyStrip q = "") :
    run_streamlit_app_triggers buttonClicked q = false := by
  unfold run_streamlit_app_triggers
  rw [h]
  simp

/-- C9 witness: a whitespace-only query does not trigger the flow even
with the button clicked. -/
theorem C9_blank_query_no_run_witness :
    run_streamlit_app_triggers true "  \t\n " = false :=
  C9_blank_query_no_run true "  \t\n " (by decide)
